import Mathlib

/-!
Verification of the RAG batch-indexing script `rag_processor.py`
(repository `company_inner_search_app_v3`).

The script is a linear orchestration pipeline:
`process_rag` creates the persistence directory, loads documents from a
directory tree (`recursive_file_check` / `file_load`) and from web pages,
normalizes every document with `adjust_string`, chunks the documents with
a character text splitter, deletes and recreates the persistence
directory, builds and persists a Chroma vector index, and returns a
retriever handle with a fixed top-k.

External capabilities (Unicode NFC normalization, the cp932 codec, the
per-extension document loaders, the embedding service) are modelled as
abstract function parameters.  The character text splitter is a
third-party library whose code is not part of the repository; its
chunking stage is modelled from the specification (see `chunkText`).
-/

namespace RagProcessor

/-- A Python value as far as `adjust_string` can observe it: either a
`str`, or any other value (tagged by a natural number so that distinct
non-string values exist). -/
inductive PyVal where
  | str (s : String)
  | other (n : Nat)
deriving DecidableEq

/-- Embedding of `adjust_string` (rag_processor.py lines 186-207).
It first checks `type(s) is not str` and returns non-strings unchanged;
then, only when `sys.platform` starts with `"win"`, it applies Unicode
NFC normalization (`nfc`) followed by the cp932 encode/decode round trip
with `errors="ignore"` (`rt`); on every other platform the string is
returned as is.  `nfc` and `rt` are the external Unicode capabilities,
passed in abstractly; `isWin` is the platform test result. -/
def adjustString (isWin : Bool) (nfc rt : String → String) : PyVal → PyVal
  | PyVal.other n => PyVal.other n
  | PyVal.str s => if isWin then PyVal.str (rt (nfc s)) else PyVal.str s

/-- `adjust_string` restricted to strings: the script applies it to
`doc.page_content`, which is always a `str`. -/
def adjustStr (isWin : Bool) (nfc rt : String → String) (s : String) : String :=
  match adjustString isWin nfc rt (PyVal.str s) with
  | PyVal.str t => t
  | PyVal.other _ => s

/-- A langchain `Document`: a text `page_content` plus a string-keyed
metadata mapping whose values are arbitrary Python values. -/
structure Doc where
  page_content : String
  metadata : List (String × PyVal)
deriving DecidableEq

/-- In-place normalization loop of `process_rag` (lines 54-57): the
content and every metadata value of a document go through
`adjust_string`; metadata keys are untouched. -/
def normalizeDoc (isWin : Bool) (nfc rt : String → String) (d : Doc) : Doc :=
  { page_content := adjustStr isWin nfc rt d.page_content
    metadata := d.metadata.map (fun kv => (kv.1, adjustString isWin nfc rt kv.2)) }

/-- Modelled from the spec: the Chunking Stage (spec §4.6).  The code
delegates chunking to the third-party `CharacterTextSplitter`
(rag_processor.py lines 63-70), whose implementation is not part of this
repository, so the splitter is modelled from the specification's
contract: the content is cut into consecutive slices of at most
`cs` (chunk_size) characters, consecutive slices sharing `ov`
(chunk_overlap) characters, and a text no longer than `cs` yields the
single chunk equal to the text itself.  (The spec's "prefers boundaries
at the separator" refinement is abstracted away: it does not affect the
size bound or the chunk count.)  `fuel` bounds the recursion; it is
instantiated with the text length, which suffices because every step
consumes at least one character.  A degenerate configuration with
`cs ≤ ov` would not terminate, so it yields the whole text as one
chunk. -/
def chunkTextAux (cs ov : Nat) : Nat → List Char → List (List Char)
  | 0, s => [s]
  | fuel + 1, s =>
    if s.length ≤ cs ∨ cs ≤ ov then [s]
    else s.take cs :: chunkTextAux cs ov fuel (s.drop (cs - ov))

/-- Modelled from the spec: chunk one text (see `chunkTextAux`). -/
def chunkText (cs ov : Nat) (s : List Char) : List (List Char) :=
  chunkTextAux cs ov s.length s

/-- Modelled from the spec: `split_documents` of the Chunking Stage —
each document's content is chunked, and every chunk becomes a new
document carrying the parent's metadata (spec §4.6, §3 "Chunk"). -/
def splitDocuments (cs ov : Nat) (docs : List Doc) : List Doc :=
  docs.flatMap (fun d =>
    (chunkText cs ov d.page_content.data).map
      (fun c => { page_content := String.mk c, metadata := d.metadata }))

/-- The basename of a POSIX path: the characters after the last `/`
(the whole path when it has no `/`), as used by `os.path.splitext` and
`os.path.basename`. -/
def basenameChars (p : List Char) : List Char :=
  (p.reverse.takeWhile (fun c => c ≠ '/')).reverse

/-- The extension of a basename, following `os.path.splitext`: the part
of the basename from its last `.` on — but only when some character
strictly before that last dot is not itself a dot (so `.bashrc` and
`...` have the empty extension).  Empty when the basename has no dot. -/
def extOfBasename (b : List Char) : List Char :=
  let r := b.reverse
  let afterRev := r.takeWhile (fun c => c ≠ '.')
  match r.dropWhile (fun c => c ≠ '.') with
  | [] => []
  | _ :: beforeRev =>
    if beforeRev.any (fun c => c ≠ '.') then '.' :: afterRev.reverse else []

/-- `os.path.splitext(path)[1]` (rag_processor.py line 166): the file
extension, case-sensitive and including the leading `.`, or `""`. -/
def splitextExt (p : String) : String :=
  String.mk (extOfBasename (basenameChars p.data))

/-- A document-loading capability (the value of the
`ct.SUPPORTED_EXTENSIONS` dict for one extension): given a path, either
a list of loaded documents or the error the external parser raised. -/
def Loader : Type := String → Except String (List Doc)

/-- The `ct.SUPPORTED_EXTENSIONS` configuration dict, abstractly: a
partial map from extension to loader.  `supported ext = none` models
`ext not in ct.SUPPORTED_EXTENSIONS`. -/
def SupportedMap : Type := String → Option Loader

/-- Embedding of `file_load` (rag_processor.py lines 157-183).  The
extension is taken with `os.path.splitext`; an unsupported extension is
silently skipped.  A `.csv` file is loaded and all its record documents
are merged into one document whose content joins the records'
`page_content` with `"\n"` and whose metadata is exactly
`{"source": path}`; any other supported extension appends the loader's
documents unchanged.  A loader error propagates (`Except.error`).
(The script also computes `file_name = os.path.basename(path)` but
never uses it, so it is omitted.)  The accumulator list `docs_all` is
threaded explicitly in place of Python's in-place mutation. -/
def fileLoad (supported : SupportedMap) (path : String) (docsAll : List Doc) :
    Except String (List Doc) :=
  let fileExtension := splitextExt path
  match supported fileExtension with
  | none => Except.ok docsAll
  | some loader =>
    if fileExtension = ".csv" then
      match loader path with
      | Except.error e => Except.error e
      | Except.ok docs =>
        let combinedText := String.intercalate "\n" (docs.map (fun d => d.page_content))
        Except.ok (docsAll ++
          [{ page_content := combinedText, metadata := [("source", PyVal.str path)] }])
    else
      match loader path with
      | Except.error e => Except.error e
      | Except.ok docs => Except.ok (docsAll ++ docs)

/-- What the walker can observe about a path through `os.path.isdir`:
a directory with named entries, or anything else — a regular file, a
broken symbolic link, or a path that does not exist at all, for all of
which `os.path.isdir` returns `False`. -/
inductive FSEntry where
  | dir (entries : List (String × FSEntry))
  | nondir

mutual
/-- Embedding of `recursive_file_check` (rag_processor.py lines
134-154): when `os.path.isdir(path)` holds, list the entries and recurse
on `os.path.join(path, name)` for each; otherwise hand the path to
`file_load`.  Errors propagate, aborting the remaining traversal. -/
def recursiveFileCheck (supported : SupportedMap) (path : String)
    (e : FSEntry) (docsAll : List Doc) : Except String (List Doc) :=
  match e with
  | FSEntry.dir entries => recursiveFileCheckList supported path entries docsAll
  | FSEntry.nondir => fileLoad supported path docsAll

/-- The `for file in files` loop of `recursive_file_check`, threading
the accumulator through the recursive calls. -/
def recursiveFileCheckList (supported : SupportedMap) (path : String) :
    List (String × FSEntry) → List Doc → Except String (List Doc)
  | [], docsAll => Except.ok docsAll
  | (name, e) :: rest, docsAll =>
    match recursiveFileCheck supported (path ++ "/" ++ name) e docsAll with
    | Except.error err => Except.error err
    | Except.ok docs2 => recursiveFileCheckList supported path rest docs2
end

/-- One observable step of `process_rag`, for stating the order of the
pipeline and its error handling.  Informational log lines are omitted
(they have no effect); `logError` is the `logger.error` call of the
`except` block and carries the triggering exception's message. -/
inductive Event where
  | makedirs
  | loadFiles
  | loadWeb
  | normalizeAll
  | chunkAll
  | rmtree
  | recreateDir
  | fromDocuments
  | persistDb
  | listFiles
  | logError (msg : String)
deriving DecidableEq

/-- The outcomes of the external effects `process_rag` performs, fixed
in advance so the pipeline is a function: the documents produced by the
file walk and by the web loader, and success or failure of the three
fallible operations inside the `try` block (`shutil.rmtree`,
`Chroma.from_documents`, `db.persist`). -/
structure RagEnv where
  docsFiles : List Doc
  docsWeb : List Doc
  rmtreeRes : Except String Unit
  embedRes : Except String Unit
  persistRes : Except String Unit

/-- The retriever handle returned by
`db.as_retriever(search_kwargs={"k": ct.SEARCH_K})`: bound to the built
index (the chunks that were embedded) and to the fixed top-k. -/
structure Retriever where
  index : List Doc
  k : Nat
deriving DecidableEq

/-- `os.makedirs(persist_directory, exist_ok=True)` on the modelled
directory state: `none` is an absent directory, `some files` an
existing directory with the given contents. -/
def makedirsExistOk (d : Option (List String)) : Option (List String) :=
  match d with
  | none => some []
  | some fs => some fs

/-- Embedding of `process_rag` (rag_processor.py lines 32-104) as a
trace-producing function.  Parameters: the platform flag and Unicode
capabilities for `adjust_string`; `ct.CHUNK_SIZE`, `ct.CHUNK_OVERLAP`
and `ct.SEARCH_K`; the initial state of the persistence directory; the
external outcomes `env`.  Steps, in the source's order: `os.makedirs`;
`load_data_sources` (file walk, then web pages, concatenated files
first); the `adjust_string` loop over contents and metadata values;
`split_documents`; then inside `try`: the `os.path.exists`-guarded
delete-and-recreate of the directory, `Chroma.from_documents`
(embedding and index build), `db.persist`, the `os.listdir` check, and
`db.as_retriever` with `k = ct.SEARCH_K`.  The first exception in the
`try` block is logged with its message and re-raised unchanged
(`Except.error` with the same message). -/
def processRag (isWin : Bool) (nfc rt : String → String)
    (chunkSize chunkOverlap searchK : Nat)
    (dir : Option (List String)) (env : RagEnv) :
    List Event × Except String Retriever :=
  let dir1 := makedirsExistOk dir
  let docsAll := env.docsFiles ++ env.docsWeb
  let docsNorm := docsAll.map (normalizeDoc isWin nfc rt)
  let splitted := splitDocuments chunkSize chunkOverlap docsNorm
  let pre := [Event.makedirs, Event.loadFiles, Event.loadWeb,
    Event.normalizeAll, Event.chunkAll]
  let rmStep : List Event × Except String Unit :=
    if dir1.isSome then
      match env.rmtreeRes with
      | Except.error e => ([Event.rmtree], Except.error e)
      | Except.ok _ => ([Event.rmtree, Event.recreateDir], Except.ok ())
    else ([], Except.ok ())
  match rmStep with
  | (ev, Except.error e) => (pre ++ ev ++ [Event.logError e], Except.error e)
  | (ev, Except.ok _) =>
    match env.embedRes with
    | Except.error e =>
      (pre ++ ev ++ [Event.fromDocuments, Event.logError e], Except.error e)
    | Except.ok _ =>
      match env.persistRes with
      | Except.error e =>
        (pre ++ ev ++ [Event.fromDocuments, Event.persistDb, Event.logError e],
         Except.error e)
      | Except.ok _ =>
        (pre ++ ev ++ [Event.fromDocuments, Event.persistDb, Event.listFiles],
         Except.ok { index := splitted, k := searchK })

/-! ## Helper lemmas -/

lemma chunkTextAux_ne_nil (cs ov fuel : Nat) (s : List Char) :
    chunkTextAux cs ov fuel s ≠ [] := by
  cases fuel with
  | zero => simp [chunkTextAux]
  | succ n =>
    unfold chunkTextAux
    by_cases h : s.length ≤ cs ∨ cs ≤ ov <;> simp [h]

lemma chunkText_ne_nil (cs ov : Nat) (s : List Char) :
    chunkText cs ov s ≠ [] :=
  chunkTextAux_ne_nil cs ov s.length s

lemma chunkTextAux_length_le (cs ov : Nat) (hov : ov < cs) :
    ∀ (fuel : Nat) (s : List Char), s.length ≤ fuel →
      ∀ c ∈ chunkTextAux cs ov fuel s, c.length ≤ cs := by
  intro fuel
  induction fuel with
  | zero =>
    intro s hs c hc
    simp [chunkTextAux] at hc
    subst hc
    omega
  | succ n ih =>
    intro s hs c hc
    unfold chunkTextAux at hc
    by_cases h : s.length ≤ cs ∨ cs ≤ ov
    · simp [h] at hc
      subst hc
      omega
    · simp [h] at hc
      push_neg at h
      rcases hc with hc | hc
      · subst hc
        simp
      · exact ih (s.drop (cs - ov)) (by simp; omega) c hc

lemma chunkText_length_le (cs ov : Nat) (hov : ov < cs) (s : List Char) :
    ∀ c ∈ chunkText cs ov s, c.length ≤ cs :=
  chunkTextAux_length_le cs ov hov s.length s le_rfl

/-! ## Claim theorems -/

/-- C4: `adjust_string` returns every non-text input unchanged on every
platform; on every platform other than Windows it is the identity on
text inputs as well; only on Windows does it apply NFC normalization
(`nfc`) followed by the cp932 encode-decode round trip (`rt`). -/
theorem adjustString_platform_spec :
    (∀ (isWin : Bool) (nfc rt : String → String) (n : Nat),
        adjustString isWin nfc rt (PyVal.other n) = PyVal.other n) ∧
    (∀ (nfc rt : String → String) (v : PyVal),
        adjustString false nfc rt v = v) ∧
    (∀ (nfc rt : String → String) (s : String),
        adjustString true nfc rt (PyVal.str s) = PyVal.str (rt (nfc s))) :=
  ⟨fun isWin _ _ _ => by cases isWin <;> rfl,
   fun _ _ v => by cases v <;> rfl,
   fun _ _ _ => rfl⟩

/-- C9: `adjust_string` is idempotent on every input and platform.  The
two hypotheses are facts of the external Unicode capabilities: `rt`
(the cp932 encode/decode round trip with `errors="ignore"`, i.e. the
filter keeping exactly the cp932-representable characters) is
idempotent, and NFC is the identity on the cp932-filtered image of its
own output (cp932 contains no combining characters and NFC output
contains no character with a singleton canonical decomposition, so no
recomposition or rewriting is possible after the filter). -/
theorem adjustString_idem (nfc rt : String → String)
    (h2 : ∀ s, nfc (rt (nfc s)) = rt (nfc s))
    (h3 : ∀ s, rt (rt s) = rt s) :
    ∀ (isWin : Bool) (v : PyVal),
      adjustString isWin nfc rt (adjustString isWin nfc rt v)
        = adjustString isWin nfc rt v := by
  intro isWin v
  cases v with
  | other n => cases isWin <;> rfl
  | str s =>
    cases isWin with
    | false => rfl
    | true => simp [adjustString, h2, h3]

theorem adjustString_idem_witness :
    adjustString true (fun s => s) (fun s => s)
        (adjustString true (fun s => s) (fun s => s) (PyVal.str "ab"))
      = adjustString true (fun s => s) (fun s => s) (PyVal.str "ab") :=
  adjustString_idem (fun s => s) (fun s => s) (fun _ => rfl) (fun _ => rfl)
    true (PyVal.str "ab")

/-- C6: the Chunking Stage is size-bounded — for every input document
sequence, every produced chunk's length is at most the configured
chunk size (for a non-degenerate configuration with overlap strictly
below the chunk size, as the splitter's contract requires). -/
theorem splitDocuments_size_bound (cs ov : Nat) (hov : ov < cs)
    (docs : List Doc) :
    ∀ d ∈ splitDocuments cs ov docs, d.page_content.length ≤ cs := by
  intro d hd
  simp only [splitDocuments, List.mem_flatMap, List.mem_map] at hd
  obtain ⟨src, _, c, hc, rfl⟩ := hd
  exact chunkText_length_le cs ov hov _ c hc

theorem splitDocuments_size_bound_witness :
    ({ page_content := "abc", metadata := [("source", PyVal.str "x")] } : Doc).page_content.length ≤ 3 :=
  splitDocuments_size_bound 3 1 (by decide)
    [{ page_content := "abcdef", metadata := [("source", PyVal.str "x")] }]
    { page_content := "abc", metadata := [("source", PyVal.str "x")] }
    (by decide)

/-- C7: for every input document sequence, the Chunking Stage produces
at least as many chunks as there are input documents (every document
yields at least one chunk). -/
theorem splitDocuments_count_ge (cs ov : Nat) (docs : List Doc) :
    docs.length ≤ (splitDocuments cs ov docs).length := by
  induction docs with
  | nil => simp [splitDocuments]
  | cons d rest ih =>
    have hne := chunkText_ne_nil cs ov d.page_content.data
    have hpos : 0 < (chunkText cs ov d.page_content.data).length :=
      List.length_pos.mpr hne
    simp only [splitDocuments, List.flatMap_cons, List.length_append,
      List.length_map, List.length_cons]
    simp only [splitDocuments] at ih
    omega

/-- C3: for every `.csv` file whose loader succeeds, `file_load`
appends exactly one document — regardless of how many record documents
the loader returned — whose content joins the records' contents with
newline separators and whose metadata is exactly
`{"source": path}`. -/
theorem fileLoad_csv (supported : SupportedMap) (loader : Loader)
    (path : String) (docsAll docs : List Doc)
    (hext : splitextExt path = ".csv")
    (hsup : supported ".csv" = some loader)
    (hload : loader path = Except.ok docs) :
    fileLoad supported path docsAll
      = Except.ok (docsAll ++
          [{ page_content :=
               String.intercalate "\n" (docs.map (fun d => d.page_content))
             metadata := [("source", PyVal.str path)] }]) := by
  simp only [fileLoad]
  rw [hext, hsup]
  simp [hload]

theorem fileLoad_csv_witness :
    fileLoad
        (fun ext => if ext = ".csv" then
          some (fun _ => Except.ok
            [{ page_content := "r1", metadata := [] },
             { page_content := "r2", metadata := [] },
             { page_content := "r3", metadata := [] }])
         else none)
        "data.csv" []
      = Except.ok
          [{ page_content := "r1\nr2\nr3"
             metadata := [("source", PyVal.str "data.csv")] }] :=
  fileLoad_csv
    (fun ext => if ext = ".csv" then
      some (fun _ => Except.ok
        [{ page_content := "r1", metadata := [] },
         { page_content := "r2", metadata := [] },
         { page_content := "r3", metadata := [] }])
     else none)
    (fun _ => Except.ok
      [{ page_content := "r1", metadata := [] },
       { page_content := "r2", metadata := [] },
       { page_content := "r3", metadata := [] }])
    "data.csv" []
    [{ page_content := "r1", metadata := [] },
     { page_content := "r2", metadata := [] },
     { page_content := "r3", metadata := [] }]
    (by decide) rfl rfl

/-- C5: for every file whose extension — taken case-sensitively and
with the leading `.` by `os.path.splitext` — is outside the supported
set, `file_load` appends zero documents to the accumulator and raises
no error. -/
theorem fileLoad_unsupported (supported : SupportedMap) (path : String)
    (docsAll : List Doc)
    (h : supported (splitextExt path) = none) :
    fileLoad supported path docsAll = Except.ok docsAll := by
  simp only [fileLoad]
  rw [h]

theorem fileLoad_unsupported_witness :
    fileLoad (fun _ => none) "memo.xyz"
        [{ page_content := "kept", metadata := [] }]
      = Except.ok [{ page_content := "kept", metadata := [] }] :=
  fileLoad_unsupported (fun _ => none) "memo.xyz"
    [{ page_content := "kept", metadata := [] }] rfl

/-- C10: `recursive_file_check` hands every non-directory path —
`os.path.isdir` is false also for a path that does not exist, such as a
broken symbolic link, so those are included — to `file_load`; such a
path is silently skipped exactly when its extension is unsupported, and
when the extension is supported the loader's error propagates to the
caller. -/
theorem recursiveFileCheck_nondir (supported : SupportedMap)
    (path : String) (docsAll : List Doc) :
    recursiveFileCheck supported path FSEntry.nondir docsAll
        = fileLoad supported path docsAll ∧
    (supported (splitextExt path) = none →
      recursiveFileCheck supported path FSEntry.nondir docsAll
        = Except.ok docsAll) ∧
    (∀ (loader : Loader) (e : String),
      supported (splitextExt path) = some loader →
      loader path = Except.error e →
      recursiveFileCheck supported path FSEntry.nondir docsAll
        = Except.error e) := by
  refine ⟨rfl, ?_, ?_⟩
  · intro h
    show fileLoad supported path docsAll = Except.ok docsAll
    simp only [fileLoad]
    rw [h]
  · intro loader e hsup herr
    show fileLoad supported path docsAll = Except.error e
    simp only [fileLoad]
    rw [hsup]
    by_cases hcsv : splitextExt path = ".csv" <;> simp [hcsv, herr]

theorem recursiveFileCheck_nondir_witness :
    recursiveFileCheck
        (fun ext => if ext = ".txt" then
          some (fun _ => Except.error "no such file") else none)
        "data/broken_link.txt" FSEntry.nondir []
      = Except.error "no such file" :=
  (recursiveFileCheck_nondir
      (fun ext => if ext = ".txt" then
        some (fun _ => Except.error "no such file") else none)
      "data/broken_link.txt" []).2.2
    (fun _ => Except.error "no such file") "no such file" rfl rfl

/-- C1: on every run in which the external operations succeed, the
pipeline performs its steps in exactly this order — create the
persistence directory, load the file documents and then the web
documents, normalize every content and metadata value, chunk, delete
and recreate the persistence directory, embed the chunks and build the
index (`Chroma.from_documents`), persist it — and returns a retriever
bound to that index with the fixed configured top-k
(`ct.SEARCH_K`). -/
theorem processRag_success (isWin : Bool) (nfc rt : String → String)
    (chunkSize chunkOverlap searchK : Nat)
    (dir : Option (List String)) (env : RagEnv)
    (hrm : env.rmtreeRes = Except.ok ())
    (hemb : env.embedRes = Except.ok ())
    (hper : env.persistRes = Except.ok ()) :
    processRag isWin nfc rt chunkSize chunkOverlap searchK dir env
      = ([Event.makedirs, Event.loadFiles, Event.loadWeb,
          Event.normalizeAll, Event.chunkAll, Event.rmtree,
          Event.recreateDir, Event.fromDocuments, Event.persistDb,
          Event.listFiles],
         Except.ok
           { index := splitDocuments chunkSize chunkOverlap
               ((env.docsFiles ++ env.docsWeb).map (normalizeDoc isWin nfc rt))
             k := searchK }) := by
  unfold processRag
  cases dir <;> simp [makedirsExistOk, hrm, hemb, hper]

theorem processRag_success_witness :
    processRag false (fun s => s) (fun s => s) 10 2 3 none
        { docsFiles := [{ page_content := "A\nB"
                          metadata := [("source", PyVal.str "a.txt")] }]
          docsWeb := []
          rmtreeRes := Except.ok ()
          embedRes := Except.ok ()
          persistRes := Except.ok () }
      = ([Event.makedirs, Event.loadFiles, Event.loadWeb,
          Event.normalizeAll, Event.chunkAll, Event.rmtree,
          Event.recreateDir, Event.fromDocuments, Event.persistDb,
          Event.listFiles],
         Except.ok
           { index := splitDocuments 10 2
               ((([{ page_content := "A\nB"
                     metadata := [("source", PyVal.str "a.txt")] }] : List Doc) ++
                   []).map (normalizeDoc false (fun s => s) (fun s => s)))
             k := 3 }) :=
  processRag_success false (fun s => s) (fun s => s) 10 2 3 none
    { docsFiles := [{ page_content := "A\nB"
                      metadata := [("source", PyVal.str "a.txt")] }]
      docsWeb := []
      rmtreeRes := Except.ok ()
      embedRes := Except.ok ()
      persistRes := Except.ok () }
    rfl rfl rfl

/-- C2 counterexample: the claim says the destructive delete-and-
recreate happens only when the persistence directory already contains
index data.  Start from a persistence directory that does not exist at
all — so it certainly holds no index data (step 1 then creates it
empty) — and the run still performs `shutil.rmtree`: the guard is
`os.path.exists`, which step 1 has just made true. -/
theorem processRag_rmtree_on_no_data :
    Event.rmtree ∈
      (processRag false (fun s => s) (fun s => s) 10 2 3 none
        { docsFiles := [], docsWeb := []
          rmtreeRes := Except.ok ()
          embedRes := Except.ok ()
          persistRes := Except.ok () }).1 := by decide

/-- C2 amended: the delete-and-recreate step is guarded only by
`os.path.exists`, and step 1 (`os.makedirs` with `exist_ok=True`)
guarantees the directory exists by then, so the destructive step is
performed on every run — whatever the directory's initial state and
contents, index data or none. -/
theorem processRag_rmtree_always (isWin : Bool) (nfc rt : String → String)
    (chunkSize chunkOverlap searchK : Nat)
    (dir : Option (List String)) (env : RagEnv) :
    Event.rmtree ∈
      (processRag isWin nfc rt chunkSize chunkOverlap searchK dir env).1 := by
  obtain ⟨df, dw, r, em, p⟩ := env
  cases dir <;> cases r <;> cases em <;> cases p <;>
    simp [processRag, makedirsExistOk]

/-- C8: a failure of any of the three fallible operations inside the
`try` block — the destructive rebuild (`shutil.rmtree`), the embed and
index build (`Chroma.from_documents`), or the persist (`db.persist`) —
is caught exactly once at the outer boundary of `process_rag`: the
produced trace is the attempted prefix followed by exactly one
`logError` carrying the triggering exception's message, each operation
was attempted at most once (no retry), and the error is re-raised
unchanged as the result. -/
theorem processRag_error_boundary (isWin : Bool) (nfc rt : String → String)
    (chunkSize chunkOverlap searchK : Nat)
    (dir : Option (List String)) (env : RagEnv) (e : String) :
    (env.rmtreeRes = Except.error e →
      processRag isWin nfc rt chunkSize chunkOverlap searchK dir env
        = ([Event.makedirs, Event.loadFiles, Event.loadWeb,
            Event.normalizeAll, Event.chunkAll, Event.rmtree,
            Event.logError e],
           Except.error e)) ∧
    (env.rmtreeRes = Except.ok () → env.embedRes = Except.error e →
      processRag isWin nfc rt chunkSize chunkOverlap searchK dir env
        = ([Event.makedirs, Event.loadFiles, Event.loadWeb,
            Event.normalizeAll, Event.chunkAll, Event.rmtree,
            Event.recreateDir, Event.fromDocuments, Event.logError e],
           Except.error e)) ∧
    (env.rmtreeRes = Except.ok () → env.embedRes = Except.ok () →
      env.persistRes = Except.error e →
      processRag isWin nfc rt chunkSize chunkOverlap searchK dir env
        = ([Event.makedirs, Event.loadFiles, Event.loadWeb,
            Event.normalizeAll, Event.chunkAll, Event.rmtree,
            Event.recreateDir, Event.fromDocuments, Event.persistDb,
            Event.logError e],
           Except.error e)) := by
  refine ⟨?_, ?_, ?_⟩ <;>
    · intros
      unfold processRag
      cases dir <;> simp [makedirsExistOk, *]

theorem processRag_error_boundary_witness :
    processRag false (fun s => s) (fun s => s) 10 2 3 none
        { docsFiles := [], docsWeb := []
          rmtreeRes := Except.ok ()
          embedRes := Except.error "embedding failed"
          persistRes := Except.ok () }
      = ([Event.makedirs, Event.loadFiles, Event.loadWeb,
          Event.normalizeAll, Event.chunkAll, Event.rmtree,
          Event.recreateDir, Event.fromDocuments,
          Event.logError "embedding failed"],
         Except.error "embedding failed") :=
  (processRag_error_boundary false (fun s => s) (fun s => s) 10 2 3 none
      { docsFiles := [], docsWeb := []
        rmtreeRes := Except.ok ()
        embedRes := Except.error "embedding failed"
        persistRes := Except.ok () }
      "embedding failed").2.1 rfl rfl

end RagProcessor
